import Mathlib

/-!
Verification of the binary provisioning subsystem (`iscc_sdk/bin.py`).

The Python module is shallowly embedded: the filesystem is an association
list from paths to contents plus a set of executable paths, archives are
explicit member lists, the network is a function from URLs to served
content, and the external `blake3` hex digest is a function parameter of
the environment.  Every installer is translated statement by statement
from the source; network fetches are counted explicitly so that the
idempotence and no-redundant-download properties can be stated.
-/

namespace IsccBin

/-- Content of a file: raw bytes (as a string), a zip archive with named
members, or a gzip-compressed tar archive with named members. -/
inductive Content where
  | raw (data : String)
  | zip (members : List (String × String))
  | targz (members : List (String × String))
deriving DecidableEq

/-- Filesystem state: files (path ↦ content, later writes shadow earlier
ones) and the set of paths whose executable bit is set.  The model has no
directories, so `os.path.isfile` and `os.path.exists` coincide on it. -/
structure FSt where
  files : List (String × Content)
  execs : List String
deriving DecidableEq

/-- Look up the content stored at a path. -/
def lookupFile (fs : FSt) (p : String) : Option Content :=
  match fs.files.find? (fun e => e.1 == p) with
  | some e => some e.2
  | none => none

/-- Model of `os.path.isfile`. -/
def isfile (fs : FSt) (p : String) : Bool :=
  (lookupFile fs p).isSome

/-- Model of `os.path.exists`. -/
def pexists (fs : FSt) (p : String) : Bool :=
  (lookupFile fs p).isSome

/-- Model of `os.access(p, os.X_OK)`. -/
def access_x (fs : FSt) (p : String) : Bool :=
  fs.execs.contains p

/-- Create or overwrite the file at `p` with content `c`.  Permission
bits are untouched, matching `open(p, "wb")`. -/
def writeFile (fs : FSt) (p : String) (c : Content) : FSt :=
  ⟨(p, c) :: fs.files, fs.execs⟩

/-- Model of `os.chmod(p, st.st_mode | stat.S_IEXEC)`: add the executable
bit. -/
def chmodExec (fs : FSt) (p : String) : FSt :=
  ⟨fs.files, p :: fs.execs⟩

/-- Lowercase a string (Python `str.lower()` for the ASCII names used
here). -/
def strLower (s : String) : String :=
  String.mk (s.toList.map Char.toLower)

/-- Python `str.rstrip(chars)`: drop trailing characters drawn from a
set. -/
def rstripChars (cs : List Char) (s : String) : String :=
  String.mk ((s.toList.reverse.dropWhile (fun c => cs.contains c)).reverse)

/-- Python `str.endswith(suffix)`. -/
def endswith (s suffix : String) : Bool :=
  suffix.toList.reverse.isPrefixOf s.toList.reverse

/-- Last slash-separated segment, accumulator style. -/
def basenameAux : List Char → List Char → List Char
  | [], acc => acc.reverse
  | '/' :: rest, _ => basenameAux rest []
  | c :: rest, acc => basenameAux rest (c :: acc)

/-- Model of `os.path.basename` for slash-separated paths. -/
def basename (p : String) : String :=
  String.mk (basenameAux p.toList [])

/-- Model of `Path(p).parent` / `os.path.dirname` for slash-separated
paths. -/
def dirname (p : String) : String :=
  String.mk (((p.toList.reverse.dropWhile (fun c => c != '/')).drop 1).reverse)

/-- Model of `os.path.join` on a POSIX-style filesystem. -/
def pjoin (a b : String) : String :=
  a ++ "/" ++ b

/-- Scan for the first `://`, returning the characters before it. -/
def schemeAux : List Char → List Char → Option (List Char)
  | [], _ => none
  | ':' :: '/' :: '/' :: _, acc => some acc.reverse
  | c :: rest, acc => schemeAux rest (c :: acc)

/-- Model of `urlparse(url).scheme` for the URL shapes the module
handles: the part before the first `://`, or empty when absent. -/
def urlScheme (url : String) : String :=
  match schemeAux url.toList [] with
  | some s => String.mk s
  | none => ""

/-- Model of `os.path.basename(urlparse(url).path)` for URLs without a
query or fragment: the final slash-separated segment. -/
def url_basename (url : String) : String :=
  basename url

/-- Python dict `.get`: lookup in an association list. -/
def dictGet (d : List (String × String)) (k : String) : Option String :=
  match d.find? (fun e => e.1 == k) with
  | some e => some e.2
  | none => none

/-- Error conditions raised by the module. -/
inductive Err where
  | keyErr (k : String)
  | valueErr
  | integrityErr (p : String)
  | fileNotFound (p : String)
  | badArchive (p : String)
  | fileExists (p : String)
  | zipKeyErr (n : String)
deriving DecidableEq

/-- The process environment: host platform introspection, the
application data directory, the external blake3 hex digest, the network,
and the result of `shutil.which("java")`. -/
structure Env where
  sysName : String
  arch : String
  dataDir : String
  hash : Content → String
  net : String → Content
  whichJava : Option String

/-- Model of `system_tag()`: lowercased `platform.system()` joined with
`architecture()[0].rstrip("bit")`. -/
def system_tag (env : Env) : String :=
  strLower env.sysName ++ "-" ++ rstripChars ['b', 'i', 't'] env.arch

/-- Model of `is_installed(fp)`: the path is a file and is executable. -/
def is_installed (fs : FSt) (fp : String) : Bool :=
  isfile fs fp && access_x fs fp

/-- Result of a step that may download: outcome, final filesystem, and
the number of network fetches performed. -/
structure DLRes where
  res : Except Err String
  fs : FSt
  fetches : Nat

/-- The integrity comparison `checksum == b3_calc` from `download_file`:
exact string equality against the computed hex digest (`checksum` is
`None` when a registry `.get` found no entry). -/
def checksum_ok (checksum : Option String) (digest : String) : Bool :=
  checksum == some digest

/-- The fall-through download branch of `download_file`: fetch `url`,
write it to `out_path`, and verify the fresh bytes. -/
def do_download (env : Env) (fs : FSt) (url : String) (checksum : Option String)
    (out_path : String) : DLRes :=
  let data := env.net url
  let fs2 := writeFile fs out_path data
  if checksum_ok checksum (env.hash data) then ⟨Except.ok out_path, fs2, 1⟩
  else ⟨Except.error (Err.integrityErr out_path), fs2, 1⟩

/-- Model of `download_file(url, checksum)`: reject non-https schemes,
reuse a cached file that passes verification, otherwise download and
verify. -/
def download_file (env : Env) (fs : FSt) (url : String) (checksum : Option String) : DLRes :=
  if urlScheme url == "https" then
    let out_path := pjoin env.dataDir (url_basename url)
    match lookupFile fs out_path with
    | some content =>
      if checksum_ok checksum (env.hash content) then ⟨Except.ok out_path, fs, 0⟩
      else do_download env fs url checksum out_path
    | none => do_download env fs url checksum out_path
  else ⟨Except.error Err.valueErr, fs, 0⟩

/-- Release base version of the hosted binaries. -/
def BASE_VERSION : String := "1.0.0"

/-- Release download base URL. -/
def BASE_URL : String :=
  "https://github.com/iscc/iscc-binaries/releases/download/v" ++ BASE_VERSION

/-- Pinned ffprobe version. -/
def FFPROBE_VERSION : String := "4.4.1"

/-- Per-platform ffprobe download URLs. -/
def FFPROBE_URLS : List (String × String) :=
  [("windows-64", BASE_URL ++ "/ffprobe-" ++ FFPROBE_VERSION ++ "-win-64.zip"),
   ("linux-64", BASE_URL ++ "/ffprobe-" ++ FFPROBE_VERSION ++ "-linux-64.zip"),
   ("darwin-64", BASE_URL ++ "/ffprobe-" ++ FFPROBE_VERSION ++ "-osx-64.zip")]

/-- Per-platform ffprobe archive checksums. -/
def FFPROBE_CHECKSUMS : List (String × String) :=
  [("windows-64", "6c6c7d49465f70f3a4c60dc2d5aeddb4049527c82ee6e2b4c6ad0a2a9fc9188e"),
   ("linux-64", "bfa86d00341cacbbcaad6c38c706ad1df9f268b1d1e5a1f19206ab47a95aad8f"),
   ("darwin-64", "1904fdf6d0250e3c44aa5f44b0bf31033b40329f1c3e51d3d06438273174506d")]

/-- Pinned ffmpeg version. -/
def FFMPEG_VERSION : String := "4.4.1"

/-- Per-platform ffmpeg download URLs. -/
def FFMPEG_URLS : List (String × String) :=
  [("windows-64", BASE_URL ++ "/ffmpeg-" ++ FFMPEG_VERSION ++ "-win-64.zip"),
   ("linux-64", BASE_URL ++ "/ffmpeg-" ++ FFMPEG_VERSION ++ "-linux-64.zip"),
   ("darwin-64", BASE_URL ++ "/ffmpeg-" ++ FFMPEG_VERSION ++ "-osx-64.zip")]

/-- Per-platform ffmpeg archive checksums. -/
def FFMPEG_CHECKSUMS : List (String × String) :=
  [("windows-64", "b77405ee98580971cb36c4ca0c7f888283dcffc347c282b304abbb3c1eee6fc2"),
   ("linux-64", "a8ac9f1e28ad31ca366dba17dd0c486926d533d76ffc9b47a976308245ab064e"),
   ("darwin-64", "33f980b5b59ddfc663170a419110e9504527c092b21ba6592c525f7a7c183887")]

/-- Pinned chromaprint/fpcalc version. -/
def FPCALC_VERSION : String := "1.5.1"

/-- Per-platform fpcalc download URLs. -/
def FPCALC_URLS : List (String × String) :=
  [("windows-64", BASE_URL ++ "/chromaprint-fpcalc-" ++ FPCALC_VERSION ++ "-windows-x86_64.zip"),
   ("linux-64", BASE_URL ++ "/chromaprint-fpcalc-" ++ FPCALC_VERSION ++ "-linux-x86_64.tar.gz"),
   ("darwin-64", BASE_URL ++ "/chromaprint-fpcalc-" ++ FPCALC_VERSION ++ "-macos-x86_64.tar.gz")]

/-- Per-platform fpcalc archive checksums. -/
def FPCALC_CHECKSUMS : List (String × String) :=
  [("windows-64", "e29364a879ddf7bea403b0474a556e43f40d525e0d8d5adb81578f1fbf16d9ba"),
   ("linux-64", "190977d9419daed8a555240b9c6ddf6a12940c5ff470647095ee6242e217de5c"),
   ("darwin-64", "afea164b0bc9b91e5205d126f96a21836a91ea2d24200e1b7612a7304ea3b4f1")]

/-- Pinned tika version. -/
def TIKA_VERSION : String := "2.3.0"

/-- Tika download URL (platform-independent jar). -/
def TIKA_URL : String := BASE_URL ++ "/tika-app-" ++ TIKA_VERSION ++ ".jar"

/-- Tika jar checksum. -/
def TIKA_CHECKSUM : String :=
  "e3f6ff0841b9014333fc6de4b849704384abf362100edfa573a6e4104b654491"

/-- Pinned exiv2 version. -/
def EXIV2_VERSION : String := "0.27.5"

/-- Per-platform exiv2 download URLs. -/
def EXIV2_URLS : List (String × String) :=
  [("windows-64", BASE_URL ++ "/exiv2-" ++ EXIV2_VERSION ++ "-2019msvc64.zip"),
   ("linux-64", BASE_URL ++ "/exiv2-" ++ EXIV2_VERSION ++ "-Linux64.tar.gz"),
   ("darwin-64", BASE_URL ++ "/exiv2-" ++ EXIV2_VERSION ++ "-Darwin.tar.gz")]

/-- Per-platform exiv2 archive checksums. -/
def EXIV2_CHECKSUMS : List (String × String) :=
  [("windows-64", "3e00112648ed98a60a381fc3c6dd10ec263b1d56dec4f07dce86a7736517ebcd"),
   ("linux-64", "6c6339f7f575ed794c4669e7eab4ef400a6cf7981f78ea26fc985d24d9620d58"),
   ("darwin-64", "aaf574fa910721fdc653519a2ca8ecf3d4e9b06213167ad630fcb9e18d329af4")]

/-- Per-platform in-archive relative path of the exiv2 executable. -/
def EXIV2_RELPATH : List (String × String) :=
  [("windows-64", "exiv2-" ++ EXIV2_VERSION ++ "-2019msvc64/bin/exiv2.exe"),
   ("linux-64", "exiv2-" ++ EXIV2_VERSION ++ "-Linux64/bin/exiv2"),
   ("darwin-64", "exiv2-" ++ EXIV2_VERSION ++ "-Darwin/bin/exiv2")]

/-- Per-platform in-archive relative path of the exiv2json executable. -/
def EXIV2JSON_RELPATH : List (String × String) :=
  [("windows-64", "exiv2-" ++ EXIV2_VERSION ++ "-2019msvc64/bin/exiv2json.exe"),
   ("linux-64", "exiv2-" ++ EXIV2_VERSION ++ "-Linux64/bin/exiv2json"),
   ("darwin-64", "exiv2-" ++ EXIV2_VERSION ++ "-Darwin/bin/exiv2json")]

/-- Model of `os.stat` followed by `os.chmod(..., st.st_mode | S_IEXEC)`:
`os.stat` raises `FileNotFoundError` when the path is absent. -/
def stat_chmod (fs : FSt) (p : String) : Except Err FSt :=
  if isfile fs p then Except.ok (chmodExec fs p) else Except.error (Err.fileNotFound p)

/-- Model of `exiv2_bin()`: `EXIV2_RELPATH[system_tag()]` raises
`KeyError` on an unsupported platform. -/
def exiv2_bin (env : Env) : Except Err String :=
  match dictGet EXIV2_RELPATH (system_tag env) with
  | some rp => Except.ok (pjoin env.dataDir rp)
  | none => Except.error (Err.keyErr (system_tag env))

/-- Model of `exiv2json_bin()`. -/
def exiv2json_bin (env : Env) : Except Err String :=
  match dictGet EXIV2JSON_RELPATH (system_tag env) with
  | some rp => Except.ok (pjoin env.dataDir rp)
  | none => Except.error (Err.keyErr (system_tag env))

/-- Model of `exiv2_is_installed()`: resolve the binary path, then check
file-ness and the executable bit. -/
def exiv2_is_installed (env : Env) (fs : FSt) : Except Err Bool :=
  match exiv2_bin env with
  | Except.error e => Except.error e
  | Except.ok fp => Except.ok (isfile fs fp && access_x fs fp)

/-- Model of `exiv2_extract(archive)`: `extractall` next to the archive
for `.zip` and `tar.gz` names; any other suffix falls through without an
else branch. -/
def exiv2_extract (fs : FSt) (archive : String) : Except Err FSt :=
  if endswith archive ".zip" then
    match lookupFile fs archive with
    | some (Content.zip members) =>
      Except.ok (members.foldl
        (fun acc m => writeFile acc (pjoin (dirname archive) m.1) (Content.raw m.2)) fs)
    | some _ => Except.error (Err.badArchive archive)
    | none => Except.error (Err.fileNotFound archive)
  else if endswith archive "tar.gz" then
    match lookupFile fs archive with
    | some (Content.targz members) =>
      Except.ok (members.foldl
        (fun acc m => writeFile acc (pjoin (dirname archive) m.1) (Content.raw m.2)) fs)
    | some _ => Except.error (Err.badArchive archive)
    | none => Except.error (Err.fileNotFound archive)
  else Except.ok fs

/-- Model of `exiv2_install()`: skip when installed, else download,
extract, mark both executables, and on macOS create the compatibility
symlink (`os.symlink` raises when the link path already exists). -/
def exiv2_install (env : Env) (fs : FSt) : DLRes :=
  match exiv2_is_installed env fs with
  | Except.error e => ⟨Except.error e, fs, 0⟩
  | Except.ok true =>
    match exiv2_bin env with
    | Except.ok b => ⟨Except.ok b, fs, 0⟩
    | Except.error e => ⟨Except.error e, fs, 0⟩
  | Except.ok false =>
    match dictGet EXIV2_CHECKSUMS (system_tag env) with
    | none => ⟨Except.error (Err.keyErr (system_tag env)), fs, 0⟩
    | some b3 =>
      match dictGet EXIV2_URLS (system_tag env) with
      | none => ⟨Except.error (Err.keyErr (system_tag env)), fs, 0⟩
      | some url =>
        let d := download_file env fs url (some b3)
        match d.res with
        | Except.error e => ⟨Except.error e, d.fs, d.fetches⟩
        | Except.ok archive_path =>
          match exiv2_extract d.fs archive_path with
          | Except.error e => ⟨Except.error e, d.fs, d.fetches⟩
          | Except.ok fs2 =>
            match exiv2_bin env, exiv2json_bin env with
            | Except.ok bin, Except.ok jbin =>
              match stat_chmod fs2 bin with
              | Except.error e => ⟨Except.error e, fs2, d.fetches⟩
              | Except.ok fs3 =>
                match stat_chmod fs3 jbin with
                | Except.error e => ⟨Except.error e, fs3, d.fetches⟩
                | Except.ok fs4 =>
                  if strLower env.sysName == "darwin" then
                    let lib_path :=
                      pjoin (pjoin (pjoin (dirname bin) "..") "lib") "libexiv2.27.dylib"
                    let lib_bin_path := pjoin (dirname bin) "libexiv2.27.dylib"
                    if pexists fs4 lib_bin_path then
                      ⟨Except.error (Err.fileExists lib_bin_path), fs4, d.fetches⟩
                    else
                      ⟨Except.ok bin, writeFile fs4 lib_bin_path (Content.raw lib_path),
                        d.fetches⟩
                  else ⟨Except.ok bin, fs4, d.fetches⟩
            | Except.error e, _ => ⟨Except.error e, fs2, d.fetches⟩
            | _, Except.error e => ⟨Except.error e, fs2, d.fetches⟩

/-- Model of `fpcalc_bin()`. -/
def fpcalc_bin (env : Env) : String :=
  if env.sysName == "Windows" then
    pjoin env.dataDir ("fpcalc-" ++ FPCALC_VERSION ++ ".exe")
  else pjoin env.dataDir ("fpcalc-" ++ FPCALC_VERSION)

/-- Model of `fpcalc_is_installed()`. -/
def fpcalc_is_installed (env : Env) (fs : FSt) : Bool :=
  isfile fs (fpcalc_bin env) && access_x fs (fpcalc_bin env)

/-- Model of `fpcalc_download()`: the checksum is looked up with `.get`
(no exception), the URL with `[]` (KeyError on unsupported platform). -/
def fpcalc_download (env : Env) (fs : FSt) : DLRes :=
  match dictGet FPCALC_URLS (system_tag env) with
  | none => ⟨Except.error (Err.keyErr (system_tag env)), fs, 0⟩
  | some url => download_file env fs url (dictGet FPCALC_CHECKSUMS (system_tag env))

/-- Model of `fpcalc_extract(archive)`: scan zip members for the base
name `fpcalc.exe`, or tar members whose name ends in `fpcalc`, and copy
each match to `fpcalc_bin()`; any other suffix falls through without an
else branch. -/
def fpcalc_extract (env : Env) (fs : FSt) (archive : String) : Except Err FSt :=
  if endswith archive ".zip" then
    match lookupFile fs archive with
    | some (Content.zip members) =>
      Except.ok (members.foldl
        (fun acc m =>
          if basename m.1 == "fpcalc.exe" then
            writeFile acc (fpcalc_bin env) (Content.raw m.2)
          else acc) fs)
    | some _ => Except.error (Err.badArchive archive)
    | none => Except.error (Err.fileNotFound archive)
  else if endswith archive "tar.gz" then
    match lookupFile fs archive with
    | some (Content.targz members) =>
      Except.ok (members.foldl
        (fun acc m =>
          if endswith m.1 "fpcalc" then
            writeFile acc (fpcalc_bin env) (Content.raw m.2)
          else acc) fs)
    | some _ => Except.error (Err.badArchive archive)
    | none => Except.error (Err.fileNotFound archive)
  else Except.ok fs

/-- Model of `fpcalc_install()`. -/
def fpcalc_install (env : Env) (fs : FSt) : DLRes :=
  if fpcalc_is_installed env fs then ⟨Except.ok (fpcalc_bin env), fs, 0⟩
  else
    let d := fpcalc_download env fs
    match d.res with
    | Except.error e => ⟨Except.error e, d.fs, d.fetches⟩
    | Except.ok archive_path =>
      match fpcalc_extract env d.fs archive_path with
      | Except.error e => ⟨Except.error e, d.fs, d.fetches⟩
      | Except.ok fs2 =>
        match stat_chmod fs2 (fpcalc_bin env) with
        | Except.error e => ⟨Except.error e, fs2, d.fetches⟩
        | Except.ok fs3 => ⟨Except.ok (fpcalc_bin env), fs3, d.fetches⟩

/-- Model of `ffprobe_bin()`. -/
def ffprobe_bin (env : Env) : String :=
  let path := pjoin env.dataDir ("ffprobe-" ++ FFPROBE_VERSION)
  if env.sysName == "Windows" then path ++ ".exe" else path

/-- Model of `ffprobe_download()`: URL looked up with `[]` (KeyError
when the platform is unsupported), checksum with `.get`. -/
def ffprobe_download (env : Env) (fs : FSt) : DLRes :=
  match dictGet FFPROBE_URLS (system_tag env) with
  | none => ⟨Except.error (Err.keyErr (system_tag env)), fs, 0⟩
  | some url => download_file env fs url (dictGet FFPROBE_CHECKSUMS (system_tag env))

/-- Model of `ffprobe_extract(archive)`: open the zip member named
`ffprobe`/`ffprobe.exe` (KeyError if absent, `BadZipFile` if the content
is not a zip) and copy it to `ffprobe_bin()`. -/
def ffprobe_extract (env : Env) (fs : FSt) (archive : String) : Except Err FSt :=
  let fname := if env.sysName == "Windows" then "ffprobe.exe" else "ffprobe"
  match lookupFile fs archive with
  | some (Content.zip members) =>
    match dictGet members fname with
    | some data => Except.ok (writeFile fs (ffprobe_bin env) (Content.raw data))
    | none => Except.error (Err.zipKeyErr fname)
  | some _ => Except.error (Err.badArchive archive)
  | none => Except.error (Err.fileNotFound archive)

/-- Model of `ffprobe_install()`. -/
def ffprobe_install (env : Env) (fs : FSt) : DLRes :=
  if is_installed fs (ffprobe_bin env) then ⟨Except.ok (ffprobe_bin env), fs, 0⟩
  else
    let d := ffprobe_download env fs
    match d.res with
    | Except.error e => ⟨Except.error e, d.fs, d.fetches⟩
    | Except.ok archive_path =>
      match ffprobe_extract env d.fs archive_path with
      | Except.error e => ⟨Except.error e, d.fs, d.fetches⟩
      | Except.ok fs2 =>
        match stat_chmod fs2 (ffprobe_bin env) with
        | Except.error e => ⟨Except.error e, fs2, d.fetches⟩
        | Except.ok fs3 => ⟨Except.ok (ffprobe_bin env), fs3, d.fetches⟩

/-- Model of `ffmpeg_bin()`. -/
def ffmpeg_bin (env : Env) : String :=
  let path := pjoin env.dataDir ("ffmpeg-" ++ FFMPEG_VERSION)
  if env.sysName == "Windows" then path ++ ".exe" else path

/-- Model of `ffmpeg_download()`. -/
def ffmpeg_download (env : Env) (fs : FSt) : DLRes :=
  match dictGet FFMPEG_URLS (system_tag env) with
  | none => ⟨Except.error (Err.keyErr (system_tag env)), fs, 0⟩
  | some url => download_file env fs url (dictGet FFMPEG_CHECKSUMS (system_tag env))

/-- Model of `ffmpeg_extract(archive)`. -/
def ffmpeg_extract (env : Env) (fs : FSt) (archive : String) : Except Err FSt :=
  let fname := if env.sysName == "Windows" then "ffmpeg.exe" else "ffmpeg"
  match lookupFile fs archive with
  | some (Content.zip members) =>
    match dictGet members fname with
    | some data => Except.ok (writeFile fs (ffmpeg_bin env) (Content.raw data))
    | none => Except.error (Err.zipKeyErr fname)
  | some _ => Except.error (Err.badArchive archive)
  | none => Except.error (Err.fileNotFound archive)

/-- Model of `ffmpeg_install()`. -/
def ffmpeg_install (env : Env) (fs : FSt) : DLRes :=
  if is_installed fs (ffmpeg_bin env) then ⟨Except.ok (ffmpeg_bin env), fs, 0⟩
  else
    let d := ffmpeg_download env fs
    match d.res with
    | Except.error e => ⟨Except.error e, d.fs, d.fetches⟩
    | Except.ok archive_path =>
      match ffmpeg_extract env d.fs archive_path with
      | Except.error e => ⟨Except.error e, d.fs, d.fetches⟩
      | Except.ok fs2 =>
        match stat_chmod fs2 (ffmpeg_bin env) with
        | Except.error e => ⟨Except.error e, fs2, d.fetches⟩
        | Except.ok fs3 => ⟨Except.ok (ffmpeg_bin env), fs3, d.fetches⟩

/-- Model of `java_custom_path()`. -/
def java_custom_path (env : Env) : String :=
  if env.sysName == "Windows" then
    pjoin (pjoin (pjoin env.dataDir "jdk-16.0.2+7-jre") "bin") "java.exe"
  else pjoin (pjoin (pjoin env.dataDir "jdk-16.0.2+7-jre") "bin") "java"

/-- Model of `java_bin()`: `shutil.which("java")` or the custom path. -/
def java_bin (env : Env) : String :=
  match env.whichJava with
  | some p => p
  | none => java_custom_path env

/-- Model of `java_is_installed()`. -/
def java_is_installed (env : Env) (fs : FSt) : Bool :=
  env.whichJava.isSome || is_installed fs (java_custom_path env)

/-- Modelled from the spec: `jdk.install("16", impl="openj9", jre=True,
path=data_dir)` is an external library call not in this repository; the
spec's managed-runtime installer contract says installing it results in
the runtime being installed under the data directory.  We model it as a
network fetch that materializes the runtime binary at its custom path
with the executable bit set and returns the jdk directory path. -/
def jdk_install (env : Env) (fs : FSt) : String × FSt :=
  (pjoin env.dataDir "jdk-16.0.2+7-jre",
   chmodExec (writeFile fs (java_custom_path env) (Content.raw "java")) (java_custom_path env))

/-- Trace events emitted by the java and tika installers: either steps
of the managed-runtime (java) installer or steps of the tika installer
itself. -/
inductive Ev where
  | javaFound
  | jdkFetch
  | tikaHit
  | tikaFetch
  | tikaChmod
deriving DecidableEq

/-- Whether an event belongs to the managed-runtime (java) installer. -/
def Ev.isJavaEv : Ev → Bool
  | Ev.javaFound => true
  | Ev.jdkFetch => true
  | _ => false

/-- Result of a traced installer step: outcome, filesystem, fetch count,
and emitted events in order. -/
structure TRes where
  res : Except Err String
  fs : FSt
  fetches : Nat
  trace : List Ev

/-- Model of `java_install()`: skip when java is on the PATH or the
custom path is installed, otherwise delegate to the external
`jdk.install`. -/
def java_install (env : Env) (fs : FSt) : TRes :=
  if java_is_installed env fs then ⟨Except.ok (java_bin env), fs, 0, [Ev.javaFound]⟩
  else
    let r := jdk_install env fs
    ⟨Except.ok r.1, r.2, 1, [Ev.jdkFetch]⟩

/-- Model of `tika_bin()`. -/
def tika_bin (env : Env) : String :=
  pjoin env.dataDir ("tika-app-" ++ TIKA_VERSION ++ ".jar")

/-- Model of `tika_is_installed()`: note the source checks
`os.path.exists` only, with no executable-bit requirement. -/
def tika_is_installed (env : Env) (fs : FSt) : Bool :=
  pexists fs (tika_bin env)

/-- Model of `tika_download()`. -/
def tika_download (env : Env) (fs : FSt) : DLRes :=
  download_file env fs TIKA_URL (some TIKA_CHECKSUM)

/-- The tika-specific steps of `tika_install()`, after the java install:
check, download, chmod; paired with the tika-side trace events. -/
def tika_steps (env : Env) (fs : FSt) : DLRes × List Ev :=
  if tika_is_installed env fs then (⟨Except.ok (tika_bin env), fs, 0⟩, [Ev.tikaHit])
  else
    let d := tika_download env fs
    match d.res with
    | Except.error e => (⟨Except.error e, d.fs, d.fetches⟩, [Ev.tikaFetch])
    | Except.ok path =>
      match stat_chmod d.fs (tika_bin env) with
      | Except.error e => (⟨Except.error e, d.fs, d.fetches⟩, [Ev.tikaFetch])
      | Except.ok fs2 => (⟨Except.ok path, fs2, d.fetches⟩, [Ev.tikaFetch, Ev.tikaChmod])

/-- Model of `tika_install()`: the first statement runs `java_install()`
synchronously; only then do the tika steps run. -/
def tika_install (env : Env) (fs : FSt) : TRes :=
  let j := java_install env fs
  let t := tika_steps env j.fs
  ⟨t.1.res, t.1.fs, j.fetches + t.1.fetches, j.trace ++ t.2⟩

/-- Result of the orchestrator: the returned boolean, the final
filesystem, and the per-installer outcomes (which the source leaves
unread inside the thread pool futures). -/
structure OrchRes where
  ok : Bool
  fs : FSt
  results : List (Except Err String)

/-- Model of `install()`: the `ThreadPoolExecutor` runs the five
installers (which own disjoint file names) and is joined on context
exit; we model one interleaving by threading the filesystem
sequentially.  The futures' results are discarded and the function
returns the literal `True`. -/
def install (env : Env) (fs : FSt) : OrchRes :=
  let r1 := exiv2_install env fs
  let r2 := fpcalc_install env r1.fs
  let r3 := ffprobe_install env r2.fs
  let r4 := ffmpeg_install env r3.fs
  let r5 := tika_install env r4.fs
  ⟨true, r5.fs, [r1.res, r2.res, r3.res, r4.res, r5.res]⟩

/-- The local path `download_file` derives for a URL: the data directory
joined with the URL's final path segment. -/
def out_path (env : Env) (url : String) : String :=
  pjoin env.dataDir (url_basename url)

/-- Modelled from the spec (for the C5 refinement comparison): the
spec's integrity comparison is a "case-insensitive hex comparison" of
the expected checksum against the computed digest. -/
def checksum_ok_ci (checksum digest : String) : Bool :=
  strLower checksum == strLower digest

/-- Empty filesystem (cold start). -/
def fsEmpty : FSt := ⟨[], []⟩

/-- Concrete linux-64 environment whose digest function matches no
registered checksum: every fresh download fails verification. -/
def envMismatch : Env :=
  ⟨"Linux", "64bit", "d", fun _ => "zz", fun _ => Content.raw "n", none⟩

/-- Concrete environment whose digest function returns the lowercase hex
string `ab` for every content. -/
def envCache : Env :=
  ⟨"Linux", "64bit", "d", fun _ => "ab", fun _ => Content.raw "n", none⟩

/-- Filesystem holding one cached download at `d/f.bin`. -/
def fsCache : FSt := ⟨[("d/f.bin", Content.raw "x")], []⟩

/-- A zip archive holding exactly the `ffprobe` member. -/
def ffprobeZip : Content := Content.zip [("ffprobe", "FF")]

/-- The registered linux-64 ffprobe download URL. -/
def ffprobeUrlLinux : String :=
  BASE_URL ++ "/ffprobe-" ++ FFPROBE_VERSION ++ "-linux-64.zip"

/-- Concrete linux-64 environment whose network serves the ffprobe zip
and whose digest function maps it to the registered checksum. -/
def envProbe : Env :=
  ⟨"Linux", "64bit", "d",
   fun c =>
     if c = ffprobeZip then "bfa86d00341cacbbcaad6c38c706ad1df9f268b1d1e5a1f19206ab47a95aad8f"
     else "zz",
   fun _ => ffprobeZip, none⟩

/-- A zip archive holding exactly the `ffmpeg` member. -/
def ffmpegZip : Content := Content.zip [("ffmpeg", "FM")]

/-- Concrete linux-64 environment whose network serves the ffmpeg zip
and whose digest function maps it to the registered checksum. -/
def envMpeg : Env :=
  ⟨"Linux", "64bit", "d",
   fun c =>
     if c = ffmpegZip then "a8ac9f1e28ad31ca366dba17dd0c486926d533d76ffc9b47a976308245ab064e"
     else "zz",
   fun _ => ffmpegZip, none⟩

/-- A gzip-tar archive holding exactly one member whose name ends in
`fpcalc`. -/
def fpcalcTar : Content :=
  Content.targz [("chromaprint-fpcalc-1.5.1-linux-x86_64/fpcalc", "FC")]

/-- Concrete linux-64 environment whose network serves the fpcalc tar
and whose digest function maps it to the registered checksum. -/
def envCalc : Env :=
  ⟨"Linux", "64bit", "d",
   fun c =>
     if c = fpcalcTar then "190977d9419daed8a555240b9c6ddf6a12940c5ff470647095ee6242e217de5c"
     else "zz",
   fun _ => fpcalcTar, none⟩

/-- A gzip-tar archive holding the exiv2 and exiv2json members at their
registered in-archive relative paths. -/
def exiv2Tar : Content :=
  Content.targz [("exiv2-0.27.5-Linux64/bin/exiv2", "E1"),
    ("exiv2-0.27.5-Linux64/bin/exiv2json", "E2")]

/-- Concrete linux-64 environment whose network serves the exiv2 tar and
whose digest function maps it to the registered checksum. -/
def envExiv : Env :=
  ⟨"Linux", "64bit", "d",
   fun c =>
     if c = exiv2Tar then "6c6339f7f575ed794c4669e7eab4ef400a6cf7981f78ea26fc985d24d9620d58"
     else "zz",
   fun _ => exiv2Tar, none⟩

/-- Concrete environment for a cold tika install: no system java, and
the network serves the verifying tika jar. -/
def envTika : Env :=
  ⟨"Linux", "64bit", "d",
   fun c => if c = Content.raw "jar" then TIKA_CHECKSUM else "zz",
   fun _ => Content.raw "jar", none⟩

/-- Concrete environment where `shutil.which("java")` finds a system
java. -/
def envJava : Env :=
  ⟨"Linux", "64bit", "d", fun _ => "zz", fun _ => Content.raw "n", some "/usr/bin/java"⟩

/-- Filesystem holding the tika jar (present but with no executable
bit). -/
def fsTika : FSt := ⟨[("d/tika-app-2.3.0.jar", Content.raw "j")], []⟩

/-- Filesystem holding an archive with an unsupported suffix. -/
def fsRar : FSt := ⟨[("d/a.rar", Content.raw "x")], []⟩

/-- Filesystem holding a `.zip`-named file whose content is actually a
gzip-tar archive. -/
def fsZipWrong : FSt := ⟨[("d/c.zip", Content.targz [])], []⟩

/-- Whether an installer outcome is a failure. -/
def isErr (r : Except Err String) : Bool :=
  match r with
  | Except.error _ => true
  | Except.ok _ => false

theorem lookup_write_self (fs : FSt) (p : String) (c : Content) :
    lookupFile (writeFile fs p c) p = some c := by
  simp [lookupFile, writeFile, List.find?]

theorem lookup_write_ne (fs : FSt) (p q : String) (c : Content) (h : q ≠ p) :
    lookupFile (writeFile fs p c) q = lookupFile fs q := by
  have hb : (p == q) = false := by
    simp only [beq_eq_false_iff_ne]
    exact Ne.symm h
  simp [lookupFile, writeFile, List.find?, hb]

theorem lookup_chmod (fs : FSt) (p q : String) :
    lookupFile (chmodExec fs p) q = lookupFile fs q := rfl

theorem access_write (fs : FSt) (p q : String) (c : Content) :
    access_x (writeFile fs p c) q = access_x fs q := rfl

theorem access_chmod_self (fs : FSt) (p : String) :
    access_x (chmodExec fs p) p = true := by
  simp [access_x, chmodExec]

theorem access_chmod_mono (fs : FSt) (p q : String) (h : access_x fs q = true) :
    access_x (chmodExec fs p) q = true := by
  simp [access_x, chmodExec] at h ⊢
  exact Or.inr h

theorem pexists_write_mono (fs : FSt) (p q : String) (c : Content)
    (h : pexists fs q = true) : pexists (writeFile fs p c) q = true := by
  by_cases hq : q = p
  · subst hq
    simp [pexists, lookup_write_self]
  · simpa [pexists, lookup_write_ne fs p q c hq] using h

theorem do_download_fetches (env : Env) (fs : FSt) (url : String)
    (ck : Option String) (out : String) :
    (do_download env fs url ck out).fetches = 1 := by
  simp only [do_download]
  split <;> rfl

theorem do_download_fs (env : Env) (fs : FSt) (url : String)
    (ck : Option String) (out : String) :
    (do_download env fs url ck out).fs = writeFile fs out (env.net url) := by
  simp only [do_download]
  split <;> rfl

theorem do_download_verified (env : Env) (fs : FSt) (url : String)
    (ck : Option String) (out : String)
    (h : checksum_ok ck (env.hash (env.net url)) = true) :
    do_download env fs url ck out =
      ⟨Except.ok out, writeFile fs out (env.net url), 1⟩ := by
  simp [do_download, h]

theorem do_download_corrupt (env : Env) (fs : FSt) (url : String)
    (ck : Option String) (out : String)
    (h : checksum_ok ck (env.hash (env.net url)) = false) :
    do_download env fs url ck out =
      ⟨Except.error (Err.integrityErr out), writeFile fs out (env.net url), 1⟩ := by
  simp [do_download, h]

theorem download_file_cache_hit (env : Env) (fs : FSt) (url : String)
    (ck : Option String) (content : Content)
    (hs : urlScheme url = "https")
    (hcache : lookupFile fs (out_path env url) = some content)
    (hok : checksum_ok ck (env.hash content) = true) :
    download_file env fs url ck = ⟨Except.ok (out_path env url), fs, 0⟩ := by
  unfold download_file
  rw [hs]
  simp only [beq_self_eq_true, if_true]
  unfold out_path at hcache ⊢
  rw [hcache]
  simp [hok]

theorem download_file_cache_stale (env : Env) (fs : FSt) (url : String)
    (ck : Option String) (content : Content)
    (hs : urlScheme url = "https")
    (hcache : lookupFile fs (out_path env url) = some content)
    (hbad : checksum_ok ck (env.hash content) = false) :
    download_file env fs url ck = do_download env fs url ck (out_path env url) := by
  unfold download_file
  rw [hs]
  simp only [beq_self_eq_true, if_true]
  unfold out_path at hcache ⊢
  rw [hcache]
  simp [hbad]

theorem download_file_cold (env : Env) (fs : FSt) (url : String)
    (ck : Option String)
    (hs : urlScheme url = "https")
    (hnone : lookupFile fs (out_path env url) = none) :
    download_file env fs url ck = do_download env fs url ck (out_path env url) := by
  unfold download_file
  rw [hs]
  simp only [beq_self_eq_true, if_true]
  unfold out_path at hnone ⊢
  rw [hnone]

theorem download_file_non_https (env : Env) (fs : FSt) (url : String)
    (ck : Option String) (h : urlScheme url ≠ "https") :
    download_file env fs url ck = ⟨Except.error Err.valueErr, fs, 0⟩ := by
  unfold download_file
  have hb : (urlScheme url == "https") = false := by
    simp only [beq_eq_false_iff_ne]
    exact h
  rw [hb]
  simp

/-- C4: for every URL whose scheme is not `https`, `download_file`
raises the `ValueError` before any network access (zero fetches) and
before any file is created or modified (the filesystem is returned
unchanged). -/
theorem download_rejects_plain_scheme (env : Env) (fs : FSt) (url : String)
    (ck : Option String) (h : urlScheme url ≠ "https") :
    download_file env fs url ck = ⟨Except.error Err.valueErr, fs, 0⟩ :=
  download_file_non_https env fs url ck h

/-- Witness for C4 at the concrete plain-transport URL
`http://h/f.bin`. -/
theorem download_rejects_plain_scheme_w :
    download_file envMismatch fsEmpty "http://h/f.bin" (some "zz") =
      ⟨Except.error Err.valueErr, fsEmpty, 0⟩ :=
  download_rejects_plain_scheme envMismatch fsEmpty "http://h/f.bin" (some "zz")
    (by decide)

/-- C2: when the derived local path already holds content whose digest
equals the expected checksum, `download_file` returns that path with
zero fetches and an unchanged filesystem; when the cached digest does
not match, it performs one fresh fetch and the stale file is overwritten
with the newly served content. -/
theorem download_reuses_verified_cache (env : Env) (fs : FSt) (url c : String)
    (content : Content)
    (hs : urlScheme url = "https")
    (hcache : lookupFile fs (out_path env url) = some content) :
    (c = env.hash content →
      download_file env fs url (some c) = ⟨Except.ok (out_path env url), fs, 0⟩)
    ∧ (c ≠ env.hash content →
      (download_file env fs url (some c)).fetches = 1
      ∧ lookupFile (download_file env fs url (some c)).fs (out_path env url)
          = some (env.net url)) := by
  constructor
  · intro h
    exact download_file_cache_hit env fs url (some c) content hs hcache
      (by simp [checksum_ok, h])
  · intro h
    have hbad : checksum_ok (some c) (env.hash content) = false := by
      simp [checksum_ok, h]
    rw [download_file_cache_stale env fs url (some c) content hs hcache hbad]
    refine ⟨do_download_fetches .., ?_⟩
    rw [do_download_fs]
    exact lookup_write_self ..

/-- Witness for C2: with the digest of the cached file equal to the
expected checksum, the call returns the cached path with no fetch. -/
theorem download_reuses_verified_cache_w :
    download_file envCache fsCache "https://h/f.bin" (some "ab") =
      ⟨Except.ok "d/f.bin", fsCache, 0⟩ := by
  have h := download_reuses_verified_cache envCache fsCache "https://h/f.bin" "ab"
    (Content.raw "x") (by rfl) (by rfl)
  exact h.1 rfl

/-- C3: `download_file` never returns a path whose content was not
verified: whenever it returns `ok p`, the final filesystem holds content
at `p` whose digest equals the expected checksum; and when a fresh
download's digest does not match, it fails with the integrity error. -/
theorem download_never_returns_unverified (env : Env) (fs : FSt) (url : String)
    (ck : Option String) :
    (∀ p, (download_file env fs url ck).res = Except.ok p →
      ∃ c, lookupFile (download_file env fs url ck).fs p = some c
        ∧ ck = some (env.hash c))
    ∧ (urlScheme url = "https" →
       lookupFile fs (out_path env url) = none →
       checksum_ok ck (env.hash (env.net url)) = false →
       (download_file env fs url ck).res
         = Except.error (Err.integrityErr (out_path env url))) := by
  constructor
  · intro p hp
    by_cases hs : urlScheme url = "https"
    · cases hcc : lookupFile fs (out_path env url) with
      | some content =>
        by_cases hok : checksum_ok ck (env.hash content) = true
        · rw [download_file_cache_hit env fs url ck content hs hcc hok] at hp ⊢
          simp only [Except.ok.injEq] at hp
          subst hp
          refine ⟨content, hcc, ?_⟩
          simpa [checksum_ok] using hok
        · rw [Bool.not_eq_true] at hok
          rw [download_file_cache_stale env fs url ck content hs hcc hok] at hp ⊢
          by_cases hok2 : checksum_ok ck (env.hash (env.net url)) = true
          · rw [do_download_verified env fs url ck _ hok2] at hp ⊢
            simp only [Except.ok.injEq] at hp
            subst hp
            refine ⟨env.net url, lookup_write_self .., ?_⟩
            simpa [checksum_ok] using hok2
          · rw [Bool.not_eq_true] at hok2
            rw [do_download_corrupt env fs url ck _ hok2] at hp
            exact absurd hp (by simp)
      | none =>
        rw [download_file_cold env fs url ck hs hcc] at hp ⊢
        by_cases hok2 : checksum_ok ck (env.hash (env.net url)) = true
        · rw [do_download_verified env fs url ck _ hok2] at hp ⊢
          simp only [Except.ok.injEq] at hp
          subst hp
          refine ⟨env.net url, lookup_write_self .., ?_⟩
          simpa [checksum_ok] using hok2
        · rw [Bool.not_eq_true] at hok2
          rw [do_download_corrupt env fs url ck _ hok2] at hp
          exact absurd hp (by simp)
    · rw [download_file_non_https env fs url ck hs] at hp
      exact absurd hp (by simp)
  · intro hs hnone hbad
    rw [download_file_cold env fs url ck hs hnone,
      do_download_corrupt env fs url ck _ hbad]

/-- Witness for C3: a fresh download whose digest differs from the
expected checksum fails with the integrity error. -/
theorem download_never_returns_unverified_w :
    (download_file envMismatch fsEmpty "https://h/g.bin" (some "aa")).res
      = Except.error (Err.integrityErr "d/g.bin") := by
  have h := download_never_returns_unverified envMismatch fsEmpty "https://h/g.bin"
    (some "aa")
  exact h.2 (by rfl) (by rfl) (by rfl)

/-- C10: when a fresh download fails verification, the corrupt file is
left at the derived path (no cleanup), and a subsequent call with the
same URL detects the mismatch on that cached file and performs a fresh
fetch rather than reusing it. -/
theorem download_corrupt_file_persists (env : Env) (fs : FSt) (url c : String)
    (hs : urlScheme url = "https")
    (h0 : lookupFile fs (out_path env url) = none)
    (hbad : c ≠ env.hash (env.net url)) :
    (download_file env fs url (some c)).res
        = Except.error (Err.integrityErr (out_path env url))
    ∧ lookupFile (download_file env fs url (some c)).fs (out_path env url)
        = some (env.net url)
    ∧ (download_file env (download_file env fs url (some c)).fs url
        (some c)).fetches = 1 := by
  have hck : checksum_ok (some c) (env.hash (env.net url)) = false := by
    simp [checksum_ok, hbad]
  rw [download_file_cold env fs url (some c) hs h0,
    do_download_corrupt env fs url (some c) _ hck]
  refine ⟨rfl, lookup_write_self .., ?_⟩
  rw [download_file_cache_stale env _ url (some c) (env.net url) hs
    (lookup_write_self ..) hck]
  exact do_download_fetches ..

/-- Witness for C10 at a concrete mismatching environment. -/
theorem download_corrupt_file_persists_w :
    lookupFile (download_file envMismatch fsEmpty "https://h/q.bin" (some "aa")).fs
        "d/q.bin" = some (Content.raw "n")
    ∧ (download_file envMismatch
        (download_file envMismatch fsEmpty "https://h/q.bin" (some "aa")).fs
        "https://h/q.bin" (some "aa")).fetches = 1 := by
  have h := download_corrupt_file_persists envMismatch fsEmpty "https://h/q.bin" "aa"
    (by rfl) (by rfl) (by decide)
  exact ⟨h.2.1, h.2.2⟩

/-- C5 counterexample: the uppercase-hex expected checksum `AB` is equal
up to hex-letter case to the computed digest `ab` (the spec-modelled
case-insensitive comparison accepts it), yet the source comparison
rejects it, and `download_file` consequently re-fetches instead of
returning the cached file. -/
theorem checksum_case_insensitive_cex :
    checksum_ok_ci "AB" "ab" = true
    ∧ checksum_ok (some "AB") "ab" = false
    ∧ (download_file envCache fsCache "https://h/f.bin" (some "AB")).fetches = 1 :=
  ⟨by rfl, by rfl, by rfl⟩

/-- C5 (amended): integrity verification compares the computed hex
digest against the expected checksum by exact, case-sensitive string
equality: with a cached file present, `download_file` returns it without
fetching iff the expected checksum is string-equal to its digest. -/
theorem checksum_compare_exact (env : Env) (fs : FSt) (url c : String)
    (content : Content)
    (hs : urlScheme url = "https")
    (hcache : lookupFile fs (out_path env url) = some content) :
    (download_file env fs url (some c)).fetches = 0 ↔ c = env.hash content := by
  constructor
  · intro h
    by_contra hne
    have hbad : checksum_ok (some c) (env.hash content) = false := by
      simp [checksum_ok, hne]
    rw [download_file_cache_stale env fs url (some c) content hs hcache hbad,
      do_download_fetches] at h
    exact Nat.one_ne_zero h
  · intro h
    rw [download_file_cache_hit env fs url (some c) content hs hcache
      (by simp [checksum_ok, h])]

/-- Witness for C5 (amended): string-equal checksum, zero fetches. -/
theorem checksum_compare_exact_w :
    (download_file envCache fsCache "https://h/f.bin" (some "ab")).fetches = 0 :=
  (checksum_compare_exact envCache fsCache "https://h/f.bin" "ab" (Content.raw "x")
    (by rfl) (by rfl)).mpr rfl

/-- C6 counterexample: with the tika jar present but not executable, the
source's tika installed-check still reports installed, so "path is a
file AND is executable" is not the check used for every tool: existence
alone suffices for tika. -/
theorem tika_installed_without_exec_cex :
    tika_is_installed envMismatch fsTika = true
    ∧ access_x fsTika (tika_bin envMismatch) = false :=
  ⟨by rfl, by rfl⟩

/-- C6 (amended): the generic installed-check and the per-tool checks of
exiv2, fpcalc, ffprobe, ffmpeg and java require the resolved path to be
a file AND executable, but the tika check requires only that its path
exists: existence alone suffices for tika, and the tika check ignores
the executable bits entirely. -/
theorem installed_checks_amended (env : Env) (fs : FSt) (fp : String) :
    (is_installed fs fp = true ↔ isfile fs fp = true ∧ access_x fs fp = true)
    ∧ (fpcalc_is_installed env fs = is_installed fs (fpcalc_bin env))
    ∧ (∀ b, exiv2_bin env = Except.ok b →
        exiv2_is_installed env fs = Except.ok (is_installed fs b))
    ∧ (java_is_installed env fs
        = (env.whichJava.isSome || is_installed fs (java_custom_path env)))
    ∧ (pexists fs (tika_bin env) = true → tika_is_installed env fs = true)
    ∧ (∀ ex, tika_is_installed env ⟨fs.files, ex⟩ = tika_is_installed env fs) := by
  refine ⟨?_, rfl, ?_, rfl, ?_, ?_⟩
  · simp [is_installed]
  · intro b hb
    simp [exiv2_is_installed, hb, is_installed]
  · intro h
    simpa [tika_is_installed] using h
  · intro ex
    rfl

/-- Witness for C6 (amended): a concrete exiv2 check on linux-64 and the
existence-only tika check at a jar with no executable bit. -/
theorem installed_checks_amended_w :
    exiv2_is_installed envMismatch fsEmpty
      = Except.ok (is_installed fsEmpty "d/exiv2-0.27.5-Linux64/bin/exiv2")
    ∧ tika_is_installed envMismatch fsTika = true := by
  refine ⟨?_, ?_⟩
  · exact (installed_checks_amended envMismatch fsEmpty "d/x").2.2.1
      "d/exiv2-0.27.5-Linux64/bin/exiv2" (by rfl)
  · exact (installed_checks_amended envMismatch fsTika "d/x").2.2.2.2.1 (by rfl)

/-- C9 counterexample: an archive name with an unsupported suffix is
neither extracted nor rejected: both extractors return successfully with
the filesystem unchanged (a silent no-op) instead of failing with a
structure error. -/
theorem extract_unknown_suffix_cex :
    exiv2_extract fsRar "d/a.rar" = Except.ok fsRar
    ∧ fpcalc_extract envMismatch fsRar "d/a.rar" = Except.ok fsRar :=
  ⟨by rfl, by rfl⟩

/-- C9 (amended): extraction dispatches purely on the file-name suffix:
a `.zip` name takes the zip path and a `tar.gz` name the tar path (each
failing with an archive error when the stored content does not match the
container format the suffix selects, and succeeding on a matching zip),
but a name with any other suffix is silently ignored: both extractors
return success without touching the filesystem. -/
theorem extract_dispatch_amended (env : Env) (fs : FSt) (archive : String) :
    (endswith archive ".zip" = false → endswith archive "tar.gz" = false →
      exiv2_extract fs archive = Except.ok fs
      ∧ fpcalc_extract env fs archive = Except.ok fs)
    ∧ (∀ ms, endswith archive ".zip" = true →
        lookupFile fs archive = some (Content.targz ms) →
        exiv2_extract fs archive = Except.error (Err.badArchive archive)
        ∧ fpcalc_extract env fs archive = Except.error (Err.badArchive archive))
    ∧ (∀ ms, endswith archive ".zip" = false → endswith archive "tar.gz" = true →
        lookupFile fs archive = some (Content.zip ms) →
        exiv2_extract fs archive = Except.error (Err.badArchive archive)
        ∧ fpcalc_extract env fs archive = Except.error (Err.badArchive archive))
    ∧ (∀ ms, endswith archive ".zip" = true →
        lookupFile fs archive = some (Content.zip ms) →
        (∃ fs2, exiv2_extract fs archive = Except.ok fs2)
        ∧ (∃ fs2, fpcalc_extract env fs archive = Except.ok fs2)) := by
  refine ⟨?_, ?_, ?_, ?_⟩
  · intro h1 h2
    exact ⟨by simp [exiv2_extract, h1, h2], by simp [fpcalc_extract, h1, h2]⟩
  · intro ms h1 hl
    exact ⟨by simp [exiv2_extract, h1, hl], by simp [fpcalc_extract, h1, hl]⟩
  · intro ms h1 h2 hl
    exact ⟨by simp [exiv2_extract, h1, h2, hl], by simp [fpcalc_extract, h1, h2, hl]⟩
  · intro ms h1 hl
    exact ⟨⟨_, by simp [exiv2_extract, h1, hl]; rfl⟩,
      ⟨_, by simp [fpcalc_extract, h1, hl]; rfl⟩⟩

/-- Witness for C9 (amended): the silent no-op on an unknown suffix and
the name-over-content dispatch on a mislabelled zip. -/
theorem extract_dispatch_amended_w :
    exiv2_extract fsRar "d/b.dat" = Except.ok fsRar
    ∧ exiv2_extract fsZipWrong "d/c.zip" = Except.error (Err.badArchive "d/c.zip") := by
  refine ⟨?_, ?_⟩
  · exact ((extract_dispatch_amended envMismatch fsRar "d/b.dat").1
      (by rfl) (by rfl)).1
  · exact ((extract_dispatch_amended envMismatch fsZipWrong "d/c.zip").2.1
      [] (by rfl) (by rfl)).1

/-- C1 counterexample: in a concrete run where every installer fails its
integrity check, `install` still returns `True`: the overall result does
not reflect whether every installer succeeded. -/
theorem install_ignores_failures_cex :
    (install envMismatch fsEmpty).ok = true
    ∧ (install envMismatch fsEmpty).results.any isErr = true :=
  ⟨rfl, by rfl⟩

/-- C1 (amended): `install` submits every installer to the pool and
returns the literal `True` unconditionally; the installers' outcomes
never influence the returned value. -/
theorem install_always_returns_true (env : Env) (fs : FSt) :
    (install env fs).ok = true := rfl

theorem isfile_write_self (fs : FSt) (p : String) (c : Content) :
    isfile (writeFile fs p c) p = true := by
  simp [isfile, lookup_write_self]

theorem isfile_write_mono (fs : FSt) (p q : String) (c : Content)
    (h : isfile fs q = true) : isfile (writeFile fs p c) q = true := by
  by_cases hq : q = p
  · subst hq
    simp [isfile, lookup_write_self]
  · simpa [isfile, lookup_write_ne fs p q c hq] using h

theorem download_file_fs_cases (env : Env) (fs : FSt) (url : String)
    (ck : Option String) :
    (download_file env fs url ck).fs = fs
    ∨ (download_file env fs url ck).fs
        = writeFile fs (out_path env url) (env.net url) := by
  by_cases hs : urlScheme url = "https"
  · cases hcc : lookupFile fs (out_path env url) with
    | some content =>
      by_cases hok : checksum_ok ck (env.hash content) = true
      · rw [download_file_cache_hit env fs url ck content hs hcc hok]
        exact Or.inl rfl
      · rw [Bool.not_eq_true] at hok
        rw [download_file_cache_stale env fs url ck content hs hcc hok, do_download_fs]
        exact Or.inr rfl
    | none =>
      rw [download_file_cold env fs url ck hs hcc, do_download_fs]
      exact Or.inr rfl
  · rw [download_file_non_https env fs url ck hs]
    exact Or.inl rfl

theorem java_install_trace_shape (env : Env) (fs : FSt) :
    (java_install env fs).trace = [Ev.javaFound]
    ∨ (java_install env fs).trace = [Ev.jdkFetch] := by
  by_cases h : java_is_installed env fs = true
  · simp [java_install, h]
  · rw [Bool.not_eq_true] at h
    simp [java_install, h]

theorem tika_steps_trace_shape (env : Env) (fs : FSt) :
    (tika_steps env fs).2 = [Ev.tikaHit]
    ∨ (tika_steps env fs).2 = [Ev.tikaFetch]
    ∨ (tika_steps env fs).2 = [Ev.tikaFetch, Ev.tikaChmod] := by
  unfold tika_steps
  by_cases h : tika_is_installed env fs = true
  · simp [h]
  · rw [Bool.not_eq_true] at h
    cases hr : (tika_download env fs).res with
    | error e => simp [h, hr]
    | ok p =>
      cases hsc : stat_chmod (tika_download env fs).fs (tika_bin env) with
      | error e => simp [h, hr, hsc]
      | ok fs2 => simp [h, hr, hsc]

theorem java_is_installed_after (env : Env) (fs : FSt) :
    java_is_installed env (java_install env fs).fs = true := by
  by_cases h : java_is_installed env fs = true
  · simp [java_install, h]
  · rw [Bool.not_eq_true] at h
    unfold java_install
    rw [h]
    simp [jdk_install, java_is_installed, is_installed, isfile,
      lookup_chmod, lookup_write_self, access_chmod_self]

theorem java_preserved_write (env : Env) (fs : FSt) (p : String) (c : Content)
    (h : java_is_installed env fs = true) :
    java_is_installed env (writeFile fs p c) = true := by
  simp only [java_is_installed, Bool.or_eq_true] at h ⊢
  rcases h with h | h
  · exact Or.inl h
  · simp only [is_installed, Bool.and_eq_true] at h ⊢
    refine Or.inr ⟨isfile_write_mono fs p _ c h.1, ?_⟩
    rw [access_write]
    exact h.2

theorem java_preserved_chmod (env : Env) (fs : FSt) (p : String)
    (h : java_is_installed env fs = true) :
    java_is_installed env (chmodExec fs p) = true := by
  simp only [java_is_installed, Bool.or_eq_true] at h ⊢
  rcases h with h | h
  · exact Or.inl h
  · simp only [is_installed, Bool.and_eq_true] at h ⊢
    refine Or.inr ⟨?_, access_chmod_mono fs p _ h.2⟩
    simpa [isfile, lookup_chmod] using h.1

theorem java_preserved_download (env : Env) (fs : FSt) (url : String)
    (ck : Option String) (h : java_is_installed env fs = true) :
    java_is_installed env (download_file env fs url ck).fs = true := by
  rcases download_file_fs_cases env fs url ck with hd | hd
  · rw [hd]
    exact h
  · rw [hd]
    exact java_preserved_write env fs _ _ h

theorem java_preserved_tika_steps (env : Env) (fs : FSt)
    (h : java_is_installed env fs = true) :
    java_is_installed env (tika_steps env fs).1.fs = true := by
  unfold tika_steps
  by_cases ht : tika_is_installed env fs = true
  · simpa [ht] using h
  · rw [Bool.not_eq_true] at ht
    have hd : java_is_installed env (tika_download env fs).fs = true :=
      java_preserved_download env fs TIKA_URL (some TIKA_CHECKSUM) h
    cases hr : (tika_download env fs).res with
    | error e => simpa [ht, hr] using hd
    | ok p =>
      cases hsc : stat_chmod (tika_download env fs).fs (tika_bin env) with
      | error e => simpa [ht, hr, hsc] using hd
      | ok fs2 =>
        have heq : chmodExec (tika_download env fs).fs (tika_bin env) = fs2 := by
          by_cases hf : isfile (tika_download env fs).fs (tika_bin env) = true
          · simpa [stat_chmod, hf] using hsc
          · rw [Bool.not_eq_true] at hf
            simp [stat_chmod, hf] at hsc
        have h2 : java_is_installed env fs2 = true := by
          rw [← heq]
          exact java_preserved_chmod env _ _ hd
        simpa [ht, hr, hsc] using h2

/-- C8: `tika_install` invokes the java installer synchronously before
any of its own steps: its event trace is the java installer's trace
(entirely java events) followed by tika-only events; and whenever
`tika_install` returns successfully, the managed java runtime is
installed in the resulting state. -/
theorem tika_install_requires_java (env : Env) (fs : FSt) :
    ((tika_install env fs).trace
        = (java_install env fs).trace ++ (tika_steps env (java_install env fs).fs).2
      ∧ (∀ e ∈ (java_install env fs).trace, e.isJavaEv = true)
      ∧ (∀ e ∈ (tika_steps env (java_install env fs).fs).2, e.isJavaEv = false))
    ∧ ∀ p, (tika_install env fs).res = Except.ok p →
        java_is_installed env (tika_install env fs).fs = true := by
  refine ⟨⟨rfl, ?_, ?_⟩, ?_⟩
  · intro e he
    rcases java_install_trace_shape env fs with h | h <;>
      rw [h] at he <;> simp at he <;> subst he <;> rfl
  · intro e he
    rcases tika_steps_trace_shape env (java_install env fs).fs with h | h | h <;>
      rw [h] at he <;> simp at he
    · subst he
      rfl
    · subst he
      rfl
    · rcases he with he | he <;> subst he <;> rfl
  · intro p _
    exact java_preserved_tika_steps env (java_install env fs).fs
      (java_is_installed_after env fs)

/-- Witness for C8: with a system java on the PATH and the tika jar
already present, `tika_install` succeeds and java is installed in the
final state. -/
theorem tika_install_requires_java_w :
    java_is_installed envJava (tika_install envJava fsTika).fs = true :=
  (tika_install_requires_java envJava fsTika).2 "d/tika-app-2.3.0.jar" (by rfl)

/-- Idempotence of the ffprobe installer: when installed, zero fetches
and the unchanged state; from a cold start with a verifying archive
containing the `ffprobe` member, the first call fetches exactly once
and the second call returns the identical path with zero fetches. -/
theorem ffprobe_install_idempotent (env : Env) (fs : FSt) (url ck : String)
    (members : List (String × String)) (data : String)
    (hu : dictGet FFPROBE_URLS (system_tag env) = some url)
    (hc : dictGet FFPROBE_CHECKSUMS (system_tag env) = some ck)
    (hs : urlScheme url = "https")
    (hw : (env.sysName == "Windows") = false)
    (hnet : env.net url = Content.zip members)
    (hmem : dictGet members "ffprobe" = some data)
    (hhash : env.hash (Content.zip members) = ck)
    (hcold1 : lookupFile fs (ffprobe_bin env) = none)
    (hcold2 : lookupFile fs (out_path env url) = none) :
    (∀ fs1, is_installed fs1 (ffprobe_bin env) = true →
      ffprobe_install env fs1 = ⟨Except.ok (ffprobe_bin env), fs1, 0⟩)
    ∧ (ffprobe_install env fs).res = Except.ok (ffprobe_bin env)
    ∧ (ffprobe_install env fs).fetches = 1
    ∧ ffprobe_install env (ffprobe_install env fs).fs
        = ⟨Except.ok (ffprobe_bin env), (ffprobe_install env fs).fs, 0⟩ := by
  have hpart1 : ∀ fs1, is_installed fs1 (ffprobe_bin env) = true →
      ffprobe_install env fs1 = ⟨Except.ok (ffprobe_bin env), fs1, 0⟩ := by
    intro fs1 h1
    simp [ffprobe_install, h1]
  have hck : checksum_ok (some ck) (env.hash (env.net url)) = true := by
    rw [hnet, hhash]
    simp [checksum_ok]
  have hdl : ffprobe_download env fs
      = ⟨Except.ok (out_path env url),
         writeFile fs (out_path env url) (Content.zip members), 1⟩ := by
    simp only [ffprobe_download, hu, hc]
    rw [download_file_cold env fs url (some ck) hs hcold2,
      do_download_verified env fs url (some ck) _ hck, hnet]
  have hni : is_installed fs (ffprobe_bin env) = false := by
    simp [is_installed, isfile, hcold1]
  have hext : ffprobe_extract env (writeFile fs (out_path env url) (Content.zip members))
      (out_path env url)
      = Except.ok (writeFile (writeFile fs (out_path env url) (Content.zip members))
          (ffprobe_bin env) (Content.raw data)) := by
    simp [ffprobe_extract, hw, lookup_write_self, hmem]
  have hchmod : stat_chmod
      (writeFile (writeFile fs (out_path env url) (Content.zip members))
        (ffprobe_bin env) (Content.raw data)) (ffprobe_bin env)
      = Except.ok (chmodExec
          (writeFile (writeFile fs (out_path env url) (Content.zip members))
            (ffprobe_bin env) (Content.raw data)) (ffprobe_bin env)) := by
    simp [stat_chmod, isfile, lookup_write_self]
  have hrun : ffprobe_install env fs
      = ⟨Except.ok (ffprobe_bin env),
         chmodExec (writeFile (writeFile fs (out_path env url) (Content.zip members))
           (ffprobe_bin env) (Content.raw data)) (ffprobe_bin env), 1⟩ := by
    simp only [ffprobe_install, hni, Bool.false_eq_true, if_false, hdl, hext, hchmod]
  have hinst2 : is_installed (ffprobe_install env fs).fs (ffprobe_bin env) = true := by
    rw [hrun]
    simp [is_installed, isfile, lookup_chmod, lookup_write_self, access_chmod_self]
  refine ⟨hpart1, ?_, ?_, ?_⟩
  · rw [hrun]
  · rw [hrun]
  · exact hpart1 (ffprobe_install env fs).fs hinst2

/-- Idempotence of the ffmpeg installer, mirroring the ffprobe case. -/
theorem ffmpeg_install_idempotent (env : Env) (fs : FSt) (url ck : String)
    (members : List (String × String)) (data : String)
    (hu : dictGet FFMPEG_URLS (system_tag env) = some url)
    (hc : dictGet FFMPEG_CHECKSUMS (system_tag env) = some ck)
    (hs : urlScheme url = "https")
    (hw : (env.sysName == "Windows") = false)
    (hnet : env.net url = Content.zip members)
    (hmem : dictGet members "ffmpeg" = some data)
    (hhash : env.hash (Content.zip members) = ck)
    (hcold1 : lookupFile fs (ffmpeg_bin env) = none)
    (hcold2 : lookupFile fs (out_path env url) = none) :
    (∀ fs1, is_installed fs1 (ffmpeg_bin env) = true →
      ffmpeg_install env fs1 = ⟨Except.ok (ffmpeg_bin env), fs1, 0⟩)
    ∧ (ffmpeg_install env fs).res = Except.ok (ffmpeg_bin env)
    ∧ (ffmpeg_install env fs).fetches = 1
    ∧ ffmpeg_install env (ffmpeg_install env fs).fs
        = ⟨Except.ok (ffmpeg_bin env), (ffmpeg_install env fs).fs, 0⟩ := by
  have hpart1 : ∀ fs1, is_installed fs1 (ffmpeg_bin env) = true →
      ffmpeg_install env fs1 = ⟨Except.ok (ffmpeg_bin env), fs1, 0⟩ := by
    intro fs1 h1
    simp [ffmpeg_install, h1]
  have hck : checksum_ok (some ck) (env.hash (env.net url)) = true := by
    rw [hnet, hhash]
    simp [checksum_ok]
  have hdl : ffmpeg_download env fs
      = ⟨Except.ok (out_path env url),
         writeFile fs (out_path env url) (Content.zip members), 1⟩ := by
    simp only [ffmpeg_download, hu, hc]
    rw [download_file_cold env fs url (some ck) hs hcold2,
      do_download_verified env fs url (some ck) _ hck, hnet]
  have hni : is_installed fs (ffmpeg_bin env) = false := by
    simp [is_installed, isfile, hcold1]
  have hext : ffmpeg_extract env (writeFile fs (out_path env url) (Content.zip members))
      (out_path env url)
      = Except.ok (writeFile (writeFile fs (out_path env url) (Content.zip members))
          (ffmpeg_bin env) (Content.raw data)) := by
    simp [ffmpeg_extract, hw, lookup_write_self, hmem]
  have hchmod : stat_chmod
      (writeFile (writeFile fs (out_path env url) (Content.zip members))
        (ffmpeg_bin env) (Content.raw data)) (ffmpeg_bin env)
      = Except.ok (chmodExec
          (writeFile (writeFile fs (out_path env url) (Content.zip members))
            (ffmpeg_bin env) (Content.raw data)) (ffmpeg_bin env)) := by
    simp [stat_chmod, isfile, lookup_write_self]
  have hrun : ffmpeg_install env fs
      = ⟨Except.ok (ffmpeg_bin env),
         chmodExec (writeFile (writeFile fs (out_path env url) (Content.zip members))
           (ffmpeg_bin env) (Content.raw data)) (ffmpeg_bin env), 1⟩ := by
    simp only [ffmpeg_install, hni, Bool.false_eq_true, if_false, hdl, hext, hchmod]
  have hinst2 : is_installed (ffmpeg_install env fs).fs (ffmpeg_bin env) = true := by
    rw [hrun]
    simp [is_installed, isfile, lookup_chmod, lookup_write_self, access_chmod_self]
  refine ⟨hpart1, ?_, ?_, ?_⟩
  · rw [hrun]
  · rw [hrun]
  · exact hpart1 (ffmpeg_install env fs).fs hinst2

/-- Idempotence of the fpcalc installer: the cold run takes the gzip-tar
extraction path, copying the single member whose name ends in `fpcalc`
to the binary path. -/
theorem fpcalc_install_idempotent (env : Env) (fs : FSt) (url ck mn data : String)
    (hu : dictGet FPCALC_URLS (system_tag env) = some url)
    (hc : dictGet FPCALC_CHECKSUMS (system_tag env) = some ck)
    (hs : urlScheme url = "https")
    (hz : endswith (out_path env url) ".zip" = false)
    (ht : endswith (out_path env url) "tar.gz" = true)
    (hnet : env.net url = Content.targz [(mn, data)])
    (hm : endswith mn "fpcalc" = true)
    (hhash : env.hash (Content.targz [(mn, data)]) = ck)
    (hcold1 : lookupFile fs (fpcalc_bin env) = none)
    (hcold2 : lookupFile fs (out_path env url) = none) :
    (∀ fs1, is_installed fs1 (fpcalc_bin env) = true →
      fpcalc_install env fs1 = ⟨Except.ok (fpcalc_bin env), fs1, 0⟩)
    ∧ (fpcalc_install env fs).res = Except.ok (fpcalc_bin env)
    ∧ (fpcalc_install env fs).fetches = 1
    ∧ fpcalc_install env (fpcalc_install env fs).fs
        = ⟨Except.ok (fpcalc_bin env), (fpcalc_install env fs).fs, 0⟩ := by
  have hpart1 : ∀ fs1, is_installed fs1 (fpcalc_bin env) = true →
      fpcalc_install env fs1 = ⟨Except.ok (fpcalc_bin env), fs1, 0⟩ := by
    intro fs1 h1
    have h1' : fpcalc_is_installed env fs1 = true := h1
    simp [fpcalc_install, h1']
  have hck : checksum_ok (some ck) (env.hash (env.net url)) = true := by
    rw [hnet, hhash]
    simp [checksum_ok]
  have hdl : fpcalc_download env fs
      = ⟨Except.ok (out_path env url),
         writeFile fs (out_path env url) (Content.targz [(mn, data)]), 1⟩ := by
    simp only [fpcalc_download, hu, hc]
    rw [download_file_cold env fs url (some ck) hs hcold2,
      do_download_verified env fs url (some ck) _ hck, hnet]
  have hni : fpcalc_is_installed env fs = false := by
    simp [fpcalc_is_installed, isfile, hcold1]
  have hext : fpcalc_extract env
      (writeFile fs (out_path env url) (Content.targz [(mn, data)])) (out_path env url)
      = Except.ok (writeFile (writeFile fs (out_path env url) (Content.targz [(mn, data)]))
          (fpcalc_bin env) (Content.raw data)) := by
    simp [fpcalc_extract, hz, ht, lookup_write_self, hm]
  have hchmod : stat_chmod
      (writeFile (writeFile fs (out_path env url) (Content.targz [(mn, data)]))
        (fpcalc_bin env) (Content.raw data)) (fpcalc_bin env)
      = Except.ok (chmodExec
          (writeFile (writeFile fs (out_path env url) (Content.targz [(mn, data)]))
            (fpcalc_bin env) (Content.raw data)) (fpcalc_bin env)) := by
    simp [stat_chmod, isfile, lookup_write_self]
  have hrun : fpcalc_install env fs
      = ⟨Except.ok (fpcalc_bin env),
         chmodExec (writeFile (writeFile fs (out_path env url) (Content.targz [(mn, data)]))
           (fpcalc_bin env) (Content.raw data)) (fpcalc_bin env), 1⟩ := by
    simp only [fpcalc_install, hni, Bool.false_eq_true, if_false, hdl, hext, hchmod]
  have hinst2 : is_installed (fpcalc_install env fs).fs (fpcalc_bin env) = true := by
    rw [hrun]
    simp [is_installed, isfile, lookup_chmod, lookup_write_self, access_chmod_self]
  refine ⟨hpart1, ?_, ?_, ?_⟩
  · rw [hrun]
  · rw [hrun]
  · exact hpart1 (fpcalc_install env fs).fs hinst2

/-- Idempotence of the exiv2 installer: the cold run takes the gzip-tar
`extractall` path, placing both executables at their registered relative
paths under the data directory and marking them executable (no macOS
symlink step on a non-darwin host). -/
theorem exiv2_install_idempotent (env : Env) (fs : FSt)
    (url ck rp jrp d1 d2 : String)
    (hrp : dictGet EXIV2_RELPATH (system_tag env) = some rp)
    (hjrp : dictGet EXIV2JSON_RELPATH (system_tag env) = some jrp)
    (hc : dictGet EXIV2_CHECKSUMS (system_tag env) = some ck)
    (hu : dictGet EXIV2_URLS (system_tag env) = some url)
    (hs : urlScheme url = "https")
    (hz : endswith (out_path env url) ".zip" = false)
    (ht : endswith (out_path env url) "tar.gz" = true)
    (hdir : dirname (out_path env url) = env.dataDir)
    (hnet : env.net url = Content.targz [(rp, d1), (jrp, d2)])
    (hhash : env.hash (Content.targz [(rp, d1), (jrp, d2)]) = ck)
    (hnd : (strLower env.sysName == "darwin") = false)
    (hne : pjoin env.dataDir jrp ≠ pjoin env.dataDir rp)
    (hcold1 : lookupFile fs (pjoin env.dataDir rp) = none)
    (hcold2 : lookupFile fs (out_path env url) = none) :
    (∀ fs1, is_installed fs1 (pjoin env.dataDir rp) = true →
      exiv2_install env fs1 = ⟨Except.ok (pjoin env.dataDir rp), fs1, 0⟩)
    ∧ (exiv2_install env fs).res = Except.ok (pjoin env.dataDir rp)
    ∧ (exiv2_install env fs).fetches = 1
    ∧ exiv2_install env (exiv2_install env fs).fs
        = ⟨Except.ok (pjoin env.dataDir rp), (exiv2_install env fs).fs, 0⟩ := by
  have hbin : exiv2_bin env = Except.ok (pjoin env.dataDir rp) := by
    simp [exiv2_bin, hrp]
  have hjbin : exiv2json_bin env = Except.ok (pjoin env.dataDir jrp) := by
    simp [exiv2json_bin, hjrp]
  have hpart1 : ∀ fs1, is_installed fs1 (pjoin env.dataDir rp) = true →
      exiv2_install env fs1 = ⟨Except.ok (pjoin env.dataDir rp), fs1, 0⟩ := by
    intro fs1 h1
    simp only [is_installed, Bool.and_eq_true] at h1
    simp [exiv2_install, exiv2_is_installed, hbin, is_installed, h1.1, h1.2]
  have hck : checksum_ok (some ck) (env.hash (env.net url)) = true := by
    rw [hnet, hhash]
    simp [checksum_ok]
  have hdlfile : download_file env fs url (some ck)
      = ⟨Except.ok (out_path env url),
         writeFile fs (out_path env url) (Content.targz [(rp, d1), (jrp, d2)]), 1⟩ := by
    rw [download_file_cold env fs url (some ck) hs hcold2,
      do_download_verified env fs url (some ck) _ hck, hnet]
  have hii : exiv2_is_installed env fs = Except.ok false := by
    simp [exiv2_is_installed, hbin, isfile, hcold1]
  have hext : exiv2_extract
      (writeFile fs (out_path env url) (Content.targz [(rp, d1), (jrp, d2)]))
      (out_path env url)
      = Except.ok (writeFile (writeFile
          (writeFile fs (out_path env url) (Content.targz [(rp, d1), (jrp, d2)]))
          (pjoin env.dataDir rp) (Content.raw d1))
          (pjoin env.dataDir jrp) (Content.raw d2)) := by
    simp [exiv2_extract, hz, ht, lookup_write_self, hdir]
  have hl1 : lookupFile (writeFile (writeFile
      (writeFile fs (out_path env url) (Content.targz [(rp, d1), (jrp, d2)]))
      (pjoin env.dataDir rp) (Content.raw d1))
      (pjoin env.dataDir jrp) (Content.raw d2)) (pjoin env.dataDir rp)
      = some (Content.raw d1) := by
    rw [lookup_write_ne _ _ _ _ (Ne.symm hne), lookup_write_self]
  have hch1 : stat_chmod (writeFile (writeFile
      (writeFile fs (out_path env url) (Content.targz [(rp, d1), (jrp, d2)]))
      (pjoin env.dataDir rp) (Content.raw d1))
      (pjoin env.dataDir jrp) (Content.raw d2)) (pjoin env.dataDir rp)
      = Except.ok (chmodExec (writeFile (writeFile
          (writeFile fs (out_path env url) (Content.targz [(rp, d1), (jrp, d2)]))
          (pjoin env.dataDir rp) (Content.raw d1))
          (pjoin env.dataDir jrp) (Content.raw d2)) (pjoin env.dataDir rp)) := by
    simp [stat_chmod, isfile, hl1]
  have hch2 : stat_chmod (chmodExec (writeFile (writeFile
      (writeFile fs (out_path env url) (Content.targz [(rp, d1), (jrp, d2)]))
      (pjoin env.dataDir rp) (Content.raw d1))
      (pjoin env.dataDir jrp) (Content.raw d2)) (pjoin env.dataDir rp))
      (pjoin env.dataDir jrp)
      = Except.ok (chmodExec (chmodExec (writeFile (writeFile
          (writeFile fs (out_path env url) (Content.targz [(rp, d1), (jrp, d2)]))
          (pjoin env.dataDir rp) (Content.raw d1))
          (pjoin env.dataDir jrp) (Content.raw d2)) (pjoin env.dataDir rp))
          (pjoin env.dataDir jrp)) := by
    simp [stat_chmod, isfile, lookup_chmod, lookup_write_self]
  have hrun : exiv2_install env fs
      = ⟨Except.ok (pjoin env.dataDir rp),
         chmodExec (chmodExec (writeFile (writeFile
           (writeFile fs (out_path env url) (Content.targz [(rp, d1), (jrp, d2)]))
           (pjoin env.dataDir rp) (Content.raw d1))
           (pjoin env.dataDir jrp) (Content.raw d2)) (pjoin env.dataDir rp))
           (pjoin env.dataDir jrp), 1⟩ := by
    simp only [exiv2_install, hii, hc, hu, hdlfile, hext, hbin, hjbin, hch1, hch2,
      hnd, Bool.false_eq_true, if_false]
  have hinst2 : is_installed (exiv2_install env fs).fs (pjoin env.dataDir rp) = true := by
    rw [hrun]
    simp only [is_installed, isfile, lookup_chmod, hl1, Option.isSome_some, Bool.true_and]
    exact access_chmod_mono _ _ _ (access_chmod_self _ _)
  refine ⟨hpart1, ?_, ?_, ?_⟩
  · rw [hrun]
  · rw [hrun]
  · exact hpart1 (exiv2_install env fs).fs hinst2

/-- C7 counterexample: the universal idempotence claim fails on two
managed tools at concrete cold-start runs: the java installer's first
successful call returns the jdk directory path while the immediately
following call returns the java binary path (not the same path), and
the tika installer's two consecutive calls from a cold state perform
two network fetches in total (the runtime fetch plus the jar fetch),
not exactly one. -/
theorem ensure_installed_universal_cex :
    (java_install envTika fsEmpty).res = Except.ok "d/jdk-16.0.2+7-jre"
    ∧ (java_install envTika (java_install envTika fsEmpty).fs).res
        = Except.ok "d/jdk-16.0.2+7-jre/bin/java"
    ∧ (tika_install envTika fsEmpty).res = Except.ok "d/tika-app-2.3.0.jar"
    ∧ (tika_install envTika fsEmpty).fetches = 2
    ∧ (tika_install envTika (tika_install envTika fsEmpty).fs).fetches = 0 :=
  ⟨by rfl, by rfl, by rfl, by rfl, by rfl⟩

/-- C7 (amended): for each standalone direct-download installer (exiv2,
fpcalc, ffprobe, ffmpeg), starting from a state where the tool is
installed the install call performs zero network fetches and returns the
same path with the state unchanged, and two consecutive install calls
from a cold start perform exactly one network fetch in total, the second
returning the identical path with zero fetches.  (The property does not
extend to java, whose cold call returns the jdk directory rather than
the binary path later calls return, nor to tika, whose cold install
performs two fetches through its java dependency.) -/
theorem standalone_install_idempotent :
    (∀ env fs url ck members data,
      dictGet FFPROBE_URLS (system_tag env) = some url →
      dictGet FFPROBE_CHECKSUMS (system_tag env) = some ck →
      urlScheme url = "https" →
      (env.sysName == "Windows") = false →
      env.net url = Content.zip members →
      dictGet members "ffprobe" = some data →
      env.hash (Content.zip members) = ck →
      lookupFile fs (ffprobe_bin env) = none →
      lookupFile fs (out_path env url) = none →
      (∀ fs1, is_installed fs1 (ffprobe_bin env) = true →
        ffprobe_install env fs1 = ⟨Except.ok (ffprobe_bin env), fs1, 0⟩)
      ∧ (ffprobe_install env fs).res = Except.ok (ffprobe_bin env)
      ∧ (ffprobe_install env fs).fetches = 1
      ∧ ffprobe_install env (ffprobe_install env fs).fs
          = ⟨Except.ok (ffprobe_bin env), (ffprobe_install env fs).fs, 0⟩)
    ∧ (∀ env fs url ck members data,
      dictGet FFMPEG_URLS (system_tag env) = some url →
      dictGet FFMPEG_CHECKSUMS (system_tag env) = some ck →
      urlScheme url = "https" →
      (env.sysName == "Windows") = false →
      env.net url = Content.zip members →
      dictGet members "ffmpeg" = some data →
      env.hash (Content.zip members) = ck →
      lookupFile fs (ffmpeg_bin env) = none →
      lookupFile fs (out_path env url) = none →
      (∀ fs1, is_installed fs1 (ffmpeg_bin env) = true →
        ffmpeg_install env fs1 = ⟨Except.ok (ffmpeg_bin env), fs1, 0⟩)
      ∧ (ffmpeg_install env fs).res = Except.ok (ffmpeg_bin env)
      ∧ (ffmpeg_install env fs).fetches = 1
      ∧ ffmpeg_install env (ffmpeg_install env fs).fs
          = ⟨Except.ok (ffmpeg_bin env), (ffmpeg_install env fs).fs, 0⟩)
    ∧ (∀ env fs url ck mn data,
      dictGet FPCALC_URLS (system_tag env) = some url →
      dictGet FPCALC_CHECKSUMS (system_tag env) = some ck →
      urlScheme url = "https" →
      endswith (out_path env url) ".zip" = false →
      endswith (out_path env url) "tar.gz" = true →
      env.net url = Content.targz [(mn, data)] →
      endswith mn "fpcalc" = true →
      env.hash (Content.targz [(mn, data)]) = ck →
      lookupFile fs (fpcalc_bin env) = none →
      lookupFile fs (out_path env url) = none →
      (∀ fs1, is_installed fs1 (fpcalc_bin env) = true →
        fpcalc_install env fs1 = ⟨Except.ok (fpcalc_bin env), fs1, 0⟩)
      ∧ (fpcalc_install env fs).res = Except.ok (fpcalc_bin env)
      ∧ (fpcalc_install env fs).fetches = 1
      ∧ fpcalc_install env (fpcalc_install env fs).fs
          = ⟨Except.ok (fpcalc_bin env), (fpcalc_install env fs).fs, 0⟩)
    ∧ (∀ env fs url ck rp jrp d1 d2,
      dictGet EXIV2_RELPATH (system_tag env) = some rp →
      dictGet EXIV2JSON_RELPATH (system_tag env) = some jrp →
      dictGet EXIV2_CHECKSUMS (system_tag env) = some ck →
      dictGet EXIV2_URLS (system_tag env) = some url →
      urlScheme url = "https" →
      endswith (out_path env url) ".zip" = false →
      endswith (out_path env url) "tar.gz" = true →
      dirname (out_path env url) = env.dataDir →
      env.net url = Content.targz [(rp, d1), (jrp, d2)] →
      env.hash (Content.targz [(rp, d1), (jrp, d2)]) = ck →
      (strLower env.sysName == "darwin") = false →
      pjoin env.dataDir jrp ≠ pjoin env.dataDir rp →
      lookupFile fs (pjoin env.dataDir rp) = none →
      lookupFile fs (out_path env url) = none →
      (∀ fs1, is_installed fs1 (pjoin env.dataDir rp) = true →
        exiv2_install env fs1 = ⟨Except.ok (pjoin env.dataDir rp), fs1, 0⟩)
      ∧ (exiv2_install env fs).res = Except.ok (pjoin env.dataDir rp)
      ∧ (exiv2_install env fs).fetches = 1
      ∧ exiv2_install env (exiv2_install env fs).fs
          = ⟨Except.ok (pjoin env.dataDir rp), (exiv2_install env fs).fs, 0⟩) := by
  refine ⟨?_, ?_, ?_, ?_⟩
  · intro env fs url ck members data hu hc hs hw hnet hmem hhash h1 h2
    exact ffprobe_install_idempotent env fs url ck members data hu hc hs hw hnet
      hmem hhash h1 h2
  · intro env fs url ck members data hu hc hs hw hnet hmem hhash h1 h2
    exact ffmpeg_install_idempotent env fs url ck members data hu hc hs hw hnet
      hmem hhash h1 h2
  · intro env fs url ck mn data hu hc hs hz ht hnet hm hhash h1 h2
    exact fpcalc_install_idempotent env fs url ck mn data hu hc hs hz ht hnet
      hm hhash h1 h2
  · intro env fs url ck rp jrp d1 d2 hrp hjrp hc hu hs hz ht hdir hnet hhash hnd
      hne h1 h2
    exact exiv2_install_idempotent env fs url ck rp jrp d1 d2 hrp hjrp hc hu hs
      hz ht hdir hnet hhash hnd hne h1 h2

/-- Witness for C7 (amended): concrete cold-start linux-64 runs of all
four standalone installers, each downloading once on the first call and
fetching nothing on the second. -/
theorem standalone_install_idempotent_w :
    ((ffprobe_install envProbe fsEmpty).fetches = 1
      ∧ (ffprobe_install envProbe (ffprobe_install envProbe fsEmpty).fs).fetches = 0)
    ∧ ((ffmpeg_install envMpeg fsEmpty).fetches = 1
      ∧ (ffmpeg_install envMpeg (ffmpeg_install envMpeg fsEmpty).fs).fetches = 0)
    ∧ ((fpcalc_install envCalc fsEmpty).fetches = 1
      ∧ (fpcalc_install envCalc (fpcalc_install envCalc fsEmpty).fs).fetches = 0)
    ∧ ((exiv2_install envExiv fsEmpty).fetches = 1
      ∧ (exiv2_install envExiv (exiv2_install envExiv fsEmpty).fs).fetches = 0) := by
  have h := standalone_install_idempotent
  have h1 := h.1 envProbe fsEmpty ffprobeUrlLinux
    "bfa86d00341cacbbcaad6c38c706ad1df9f268b1d1e5a1f19206ab47a95aad8f"
    [("ffprobe", "FF")] "FF" (by rfl) (by rfl) (by rfl) (by rfl) (by rfl) (by rfl)
    (by rfl) (by rfl) (by rfl)
  have h2 := h.2.1 envMpeg fsEmpty
    (BASE_URL ++ "/ffmpeg-" ++ FFMPEG_VERSION ++ "-linux-64.zip")
    "a8ac9f1e28ad31ca366dba17dd0c486926d533d76ffc9b47a976308245ab064e"
    [("ffmpeg", "FM")] "FM" (by rfl) (by rfl) (by rfl) (by rfl) (by rfl) (by rfl)
    (by rfl) (by rfl) (by rfl)
  have h3 := h.2.2.1 envCalc fsEmpty
    (BASE_URL ++ "/chromaprint-fpcalc-" ++ FPCALC_VERSION ++ "-linux-x86_64.tar.gz")
    "190977d9419daed8a555240b9c6ddf6a12940c5ff470647095ee6242e217de5c"
    "chromaprint-fpcalc-1.5.1-linux-x86_64/fpcalc" "FC" (by rfl) (by rfl) (by rfl)
    (by rfl) (by rfl) (by rfl) (by rfl) (by rfl) (by rfl) (by rfl)
  have h4 := h.2.2.2 envExiv fsEmpty
    (BASE_URL ++ "/exiv2-" ++ EXIV2_VERSION ++ "-Linux64.tar.gz")
    "6c6339f7f575ed794c4669e7eab4ef400a6cf7981f78ea26fc985d24d9620d58"
    "exiv2-0.27.5-Linux64/bin/exiv2" "exiv2-0.27.5-Linux64/bin/exiv2json" "E1" "E2"
    (by rfl) (by rfl) (by rfl) (by rfl) (by rfl) (by rfl) (by rfl) (by rfl) (by rfl)
    (by rfl) (by rfl) (by decide) (by rfl) (by rfl)
  refine ⟨⟨h1.2.2.1, ?_⟩, ⟨h2.2.2.1, ?_⟩, ⟨h3.2.2.1, ?_⟩, ⟨h4.2.2.1, ?_⟩⟩
  · rw [h1.2.2.2]
  · rw [h2.2.2.2]
  · rw [h3.2.2.2]
  · rw [h4.2.2.2]

end IsccBin





